import Mathlib

/-!
Shallow embedding of the RAGChatBot backend (RAGBackend/rag_chatbot.py,
RAGBackend/pdf_processor.py, RAGBackend/api.py) and verification of its
specification claims.

External collaborators (the completion provider, the vector index's
nearest-neighbour search, and the text splitter) are modelled as oracle
functions supplied as parameters: a provider call that raises is an oracle
returning `none`.  Everything the repository itself computes (control flow,
history updates, response assembly, session-store bookkeeping, chunk
metadata tagging, ingest error reporting) is translated directly from the
Python source.
-/

set_option autoImplicit false

namespace RAGBackend

/-- A role-tagged conversation message (langchain `SystemMessage` /
`HumanMessage` / `AIMessage` as used by rag_chatbot.py). -/
inductive Msg where
  | system (content : String)
  | human (content : String)
  | ai (content : String)
deriving DecidableEq, Repr

/-- Chunk metadata as written by `PDFProcessor.create_documents`
(pdf_processor.py lines 127-140). -/
structure Metadata where
  source : String
  filename : String
  session_id : String
  chunk_index : Nat
  total_chunks : Nat
  type : String
deriving DecidableEq, Repr

/-- A retrievable document chunk: page content plus metadata
(langchain `Document`). -/
structure Document where
  page_content : String
  metadata : Metadata
deriving DecidableEq, Repr

/-- One entry of the verbose `sources` list built in `RAGChatbot.chat`
(rag_chatbot.py lines 324-330). -/
structure Source where
  content : String
  metadata : Metadata
deriving DecidableEq, Repr

/-- The dictionary returned by `RAGChatbot.chat` (rag_chatbot.py lines
316-333).  The keys `contextualized_question`, `sources`, `num_sources`
are present only when `verbose` is true; absence is the outer `none`.
The stored value of `contextualized_question` may itself be Python
`None` (the inner `none`). -/
structure ChatResponse where
  message : String
  answer : String
  contextualized_question : Option (Option String) := none
  sources : Option (List Source) := none
  num_sources : Option Nat := none
deriving DecidableEq, Repr

/-- The response of the `/chat` endpoint (api.py lines 203-217): the
pipeline response with `session_id` added. -/
structure ApiChatResponse where
  message : String
  answer : String
  session_id : String
  contextualized_question : Option (Option String)
  sources : Option (List Source)
  num_sources : Option Nat
deriving DecidableEq, Repr

/-- Failures of the external provider calls made during one chat turn.
In the source these are exceptions propagating out of `RAGChatbot.chat`. -/
inductive PipelineError where
  | generationFailed
  | retrievalFailed
deriving DecidableEq, Repr

/-- The external collaborators of the conversational pipeline: the
completion provider (`self.llm.invoke`) and the vector-index
nearest-neighbour search (`self.db.as_retriever(search_kwargs).invoke`).
`none` models a raised exception.  Note that `retrieve` receives only the
query string and `k`: the source passes no session filter. -/
structure Providers where
  llm : List Msg → Option String
  retrieve : String → Nat → Option (List Document)

/-- System instruction of the contextualization call
(rag_chatbot.py lines 256-259). -/
def ctxSystemPrompt : String :=
  "Given the chat history, rewrite the new question to be standalone and searchable. Just return the rewritten question."

/-- The message list sent to the completion provider by
`_contextualize_question` (rag_chatbot.py lines 255-262). -/
def contextualizeMessages (hist : List Msg) (q : String) : List Msg :=
  [Msg.system ctxSystemPrompt] ++ hist ++ [Msg.human ("New question: " ++ q)]

/-- Model of `RAGChatbot._contextualize_question` (rag_chatbot.py lines 242-265):
with empty history return the question unchanged without calling the
provider; otherwise one completion call, its output trimmed. -/
def contextualize_question (llm : List Msg → Option String) (hist : List Msg)
    (user_question : String) : Option String :=
  if hist.isEmpty then some user_question
  else (llm (contextualizeMessages hist user_question)).map (fun s => s.trim)

/-- System instruction of the grounded-generation call
(rag_chatbot.py lines 301-304). -/
def genSystemPrompt : String :=
  "You are a helpful assistant that answers questions based on provided documents and conversation history."

/-- The `combined_input` f-string of `RAGChatbot.chat` (rag_chatbot.py
lines 292-298): the original message plus each retrieved chunk on its
own line. -/
def combinedInput (message : String) (docs : List Document) : String :=
  "Based on the following documents, please answer this question: " ++ message ++
  "\n\nDocuments:\n" ++
  String.intercalate "\n" (docs.map (fun doc => "- " ++ doc.page_content)) ++
  "\n\nPlease provide a clear, helpful answer using only the information from these documents. If you can\x27t find the answer in the documents, say \"I don\x27t have enough information to answer that question based on the provided documents.\"\n"

/-- The message list of the grounded-generation call
(rag_chatbot.py lines 300-307). -/
def generationMessages (hist : List Msg) (message : String)
    (docs : List Document) : List Msg :=
  [Msg.system genSystemPrompt] ++ hist ++ [Msg.human (combinedInput message docs)]

/-- Response assembly of `RAGChatbot.chat` (rag_chatbot.py lines 316-331):
`message` and `answer` always; when verbose also `contextualized_question`
(Python `None` when the rewritten query equals the original message),
`sources` in retrieval rank order, and `num_sources`. -/
def mkResponse (message answer search_question : String)
    (docs : List Document) (verbose : Bool) : ChatResponse :=
  if verbose then
    { message := message
      answer := answer
      contextualized_question :=
        some (if search_question ≠ message then some search_question else none)
      sources := some (docs.map (fun doc => ⟨doc.page_content, doc.metadata⟩))
      num_sources := some docs.length }
  else
    { message := message, answer := answer }

/-- Model of `RAGChatbot.chat` (rag_chatbot.py lines 267-333) as a state
transformer on the chat history.  The three provider calls happen in
source order; an exception at any of them propagates and leaves the
history untouched, because the two history appends (lines 313-314) only
run after a successful generation. -/
def chat (P : Providers) (hist : List Msg) (message : String) (k : Nat)
    (verbose : Bool) : Except PipelineError ChatResponse × List Msg :=
  match contextualize_question P.llm hist message with
  | none => (Except.error PipelineError.generationFailed, hist)
  | some search_question =>
    match P.retrieve search_question k with
    | none => (Except.error PipelineError.retrievalFailed, hist)
    | some docs =>
      match P.llm (generationMessages hist message docs) with
      | none => (Except.error PipelineError.generationFailed, hist)
      | some answer =>
        (Except.ok (mkResponse message answer search_question docs verbose),
         hist ++ [Msg.human message, Msg.ai answer])

/-- The process-wide session map `_conversation_sessions`
(rag_chatbot.py line 354): session id to chat history, insertion ordered
like a Python dict. -/
abbrev Store := List (String × List Msg)

/-- Dict lookup `_conversation_sessions[session_id]`. -/
def lookupStore (store : Store) (session_id : String) : Option (List Msg) :=
  match store with
  | [] => none
  | p :: rest =>
    if p.1 = session_id then some p.2 else lookupStore rest session_id

/-- Dict membership `session_id in _conversation_sessions`. -/
def containsStore (store : Store) (session_id : String) : Bool :=
  (lookupStore store session_id).isSome

/-- Model of `get_chatbot` (rag_chatbot.py lines 357-372): create the session with
an empty history on first reference, otherwise return the store
unchanged. -/
def get_chatbot (store : Store) (session_id : String) : Store :=
  if containsStore store session_id then store else store ++ [(session_id, [])]

/-- Replace the history bound to a session id (Python attribute mutation
`chatbot.chat_history = ...` or the in-place appends of a chat turn). -/
def updateStore (store : Store) (session_id : String) (h : List Msg) : Store :=
  store.map (fun p => if p.1 = session_id then (p.1, h) else p)

/-- Model of `clear_session_history` (rag_chatbot.py lines 375-388): true iff the
session exists; the record is kept with an emptied history. -/
def clear_session_history (store : Store) (session_id : String) : Bool × Store :=
  if containsStore store session_id then (true, updateStore store session_id [])
  else (false, store)

/-- Model of `delete_session` (rag_chatbot.py lines 391-404): true iff the session
exists; `del` removes the record entirely. -/
def delete_session (store : Store) (session_id : String) : Bool × Store :=
  if containsStore store session_id then
    (true, store.filter (fun p => p.1 ≠ session_id))
  else (false, store)

/-- The `/chat` endpoint (api.py lines 203-220): resolve the chatbot for
the session (creating it if needed), run the pipeline, add `session_id`
to the response.  A pipeline exception propagates (HTTP 500) and the
session's history is not updated. -/
def api_chat (P : Providers) (store : Store) (session_id message : String)
    (k : Nat) (verbose : Bool) : Except PipelineError ApiChatResponse × Store :=
  let store1 := get_chatbot store session_id
  let hist := (lookupStore store1 session_id).getD []
  match chat P hist message k verbose with
  | (Except.error e, _) => (Except.error e, store1)
  | (Except.ok r, hist') =>
    (Except.ok ⟨r.message, r.answer, session_id, r.contextualized_question,
       r.sources, r.num_sources⟩,
     updateStore store1 session_id hist')

/-- Result dictionary of `PDFProcessor.process_uploaded_pdf`
(pdf_processor.py lines 205-244).  `saved_path` and `text_length` appear
only in the success dictionary, `error` only in the failure ones. -/
structure ProcessResult where
  success : Bool
  error : Option String := none
  chunks_created : Nat
  saved_path : Option String := none
  text_length : Option Nat := none
deriving DecidableEq, Repr

/-- Model of `PDFProcessor.create_documents` (pdf_processor.py lines 96-143).  The
`CharacterTextSplitter.split_text` call is an external library routine,
passed in as `split`; everything after it (the enumerate-and-tag loop) is
the source's own code. -/
def create_documents (split : String → List String) (text source session_id
    filename : String) : List Document :=
  let chunks := split text
  chunks.enum.map (fun p =>
    { page_content := p.2
      metadata :=
        { source := source
          filename := filename
          session_id := session_id
          chunk_index := p.1
          total_chunks := chunks.length
          type := "uploaded_pdf" } })

/-- Model of `PDFProcessor.add_to_vector_store` (pdf_processor.py lines 145-173):
on success return the number of documents handed over; a raised
embedding/upsert exception is caught and reported as 0.  The external
upsert call is modelled by the oracle `upsertOk`. -/
def add_to_vector_store (upsertOk : Bool) (documents : List Document) : Nat :=
  if upsertOk then documents.length else 0

/-- Error string of the empty-extraction branch
(pdf_processor.py line 208). -/
def extractionError : String := "Failed to extract text from PDF"

/-- Error string of the failed-upsert branch (pdf_processor.py line 234). -/
def upsertError : String := "Failed to add to vector store"

/-- Model of `PDFProcessor.process_uploaded_pdf` (pdf_processor.py lines 175-244)
after the save step: `text` is the string returned by the external
`extract_text_from_pdf` (empty on extraction failure, since that routine
catches its own exceptions), `saved_path` the path the upload was saved
to, `upsertOk` the outcome of the external upsert. -/
def process_uploaded_pdf (split : String → List String) (upsertOk : Bool)
    (text saved_path session_id filename : String) : ProcessResult :=
  if text = "" then
    { success := false, error := some extractionError, chunks_created := 0 }
  else
    let documents := create_documents split text saved_path session_id filename
    let chunks_added := add_to_vector_store upsertOk documents
    if chunks_added > 0 then
      { success := true
        chunks_created := chunks_added
        saved_path := some saved_path
        text_length := some text.length }
    else
      { success := false, error := some upsertError, chunks_created := 0 }

/-- One operation applied to a single `RAGChatbot` instance: a chat turn
or `clear_history` (rag_chatbot.py lines 335-337). -/
inductive Op where
  | chatOp (message : String) (k : Nat) (verbose : Bool)
  | clearOp
deriving DecidableEq, Repr

/-- Effect of one operation on the instance's `chat_history`. -/
def applyOp (P : Providers) (hist : List Msg) : Op → List Msg
  | Op.chatOp m k v => (chat P hist m k v).2
  | Op.clearOp => []

/-- Replay a sequence of operations on one chatbot instance. -/
def runOps (P : Providers) (hist : List Msg) : List Op → List Msg
  | [] => hist
  | op :: rest => runOps P (applyOp P hist op) rest

/-- The original messages of the chat turns that completed successfully
since the last `clear_history`, in call order (replayed alongside the
history). -/
def runMsgs (P : Providers) (hist : List Msg) (ms : List String) :
    List Op → List String
  | [] => ms
  | Op.clearOp :: rest => runMsgs P [] [] rest
  | Op.chatOp m k v :: rest =>
    match chat P hist m k v with
    | (Except.ok _, hist') => runMsgs P hist' (ms ++ [m]) rest
    | (Except.error _, _) => runMsgs P hist ms rest

/-- A history consisting of human/AI pairs in strict alternation,
starting with a human turn (and hence of even length). -/
def isDialogue : List Msg → Bool
  | [] => true
  | Msg.human _ :: Msg.ai _ :: rest => isDialogue rest
  | _ => false

/-- The contents of the human turns of a history, in order. -/
def humanTurns : List Msg → List String
  | [] => []
  | Msg.human s :: rest => s :: humanTurns rest
  | _ :: rest => humanTurns rest

/-- A concrete indexed chunk owned by session "s1", used to exercise the
pipeline on closed inputs. -/
def demoDoc : Document :=
  ⟨"alpha facts", ⟨"docs/s1/a.pdf", "a.pdf", "s1", 0, 1, "uploaded_pdf"⟩⟩

/-- A concrete indexed chunk owned by session "s2". -/
def demoDocOther : Document :=
  ⟨"beta facts", ⟨"docs/s2/b.pdf", "b.pdf", "s2", 0, 1, "uploaded_pdf"⟩⟩

/-- Concrete healthy providers: the completion provider always answers,
retrieval always returns the single chunk `demoDoc`. -/
def demoProviders : Providers :=
  { llm := fun _ => some "DEMO ANSWER"
    retrieve := fun _ _ => some [demoDoc] }

/-- Concrete providers whose vector-index query raises. -/
def failProviders : Providers :=
  { llm := fun _ => some "DEMO ANSWER"
    retrieve := fun _ _ => none }

/-- The vector-index query of rag_chatbot.py line 288-289 receives only
the query text and `k` — no session filter — so every record of the
shared index is a candidate.  Ranking is external; the index order
stands in for similarity rank here, and the top `k` records are
returned. -/
def sharedRetrieve (index : List Document) : String → Nat → Option (List Document) :=
  fun _ k => some (index.take k)

/-- Healthy providers reading from a given shared index. -/
def providersWithIndex (index : List Document) : Providers :=
  { llm := fun _ => some "GROUNDED ANSWER"
    retrieve := sharedRetrieve index }

theorem mkResponse_message (message answer sq : String) (docs : List Document)
    (v : Bool) : (mkResponse message answer sq docs v).message = message := by
  cases v <;> simp [mkResponse]

theorem mkResponse_answer (message answer sq : String) (docs : List Document)
    (v : Bool) : (mkResponse message answer sq docs v).answer = answer := by
  cases v <;> simp [mkResponse]

/-- Inversion of a successful chat turn: each provider call succeeded in
source order, the response is assembled from their outputs, and the two
history turns are appended. -/
theorem chat_ok_inv (P : Providers) (hist : List Msg) (m : String) (k : Nat)
    (v : Bool) (r : ChatResponse) (h' : List Msg)
    (h : chat P hist m k v = (Except.ok r, h')) :
    ∃ sq docs answer,
      contextualize_question P.llm hist m = some sq ∧
      P.retrieve sq k = some docs ∧
      P.llm (generationMessages hist m docs) = some answer ∧
      r = mkResponse m answer sq docs v ∧
      h' = hist ++ [Msg.human m, Msg.ai answer] := by
  unfold chat at h
  split at h
  · simp at h
  · rename_i sq hcq
    split at h
    · simp at h
    · rename_i docs hr
      split at h
      · simp at h
      · rename_i answer hl
        simp only [Prod.mk.injEq, Except.ok.injEq] at h
        exact ⟨sq, docs, answer, hcq, hr, hl, h.1.symm, h.2.symm⟩

/-- A successful chat turn appends exactly the human and AI turns. -/
theorem chat_ok_snd (P : Providers) (hist : List Msg) (m : String) (k : Nat)
    (v : Bool) (r : ChatResponse) (h' : List Msg)
    (h : chat P hist m k v = (Except.ok r, h')) :
    h' = hist ++ [Msg.human m, Msg.ai r.answer] := by
  obtain ⟨sq, docs, answer, _, _, _, hr, hh⟩ := chat_ok_inv P hist m k v r h' h
  rw [hh, hr, mkResponse_answer]

/-- A failed chat turn leaves the history untouched. -/
theorem chat_error_snd (P : Providers) (hist : List Msg) (m : String) (k : Nat)
    (v : Bool) (e : PipelineError) (h' : List Msg)
    (h : chat P hist m k v = (Except.error e, h')) :
    h' = hist := by
  unfold chat at h
  split at h
  · simp only [Prod.mk.injEq] at h
    exact h.2.symm
  · split at h
    · simp only [Prod.mk.injEq] at h
      exact h.2.symm
    · split at h
      · simp only [Prod.mk.injEq] at h
        exact h.2.symm
      · simp at h

/-- C1: on a session whose history is empty, the standalone search query
equals the raw input message, the completion provider is not consulted
for a rewrite (the result is the same under every provider), and a
successful verbose chat reports `contextualized_question` as null. -/
theorem contextualize_empty_history_short_circuit :
    (∀ (llm llm' : List Msg → Option String) (q : String),
        contextualize_question llm [] q = some q ∧
        contextualize_question llm [] q = contextualize_question llm' [] q)
  ∧ (∀ (P : Providers) (m : String) (k : Nat) (r : ChatResponse)
        (h' : List Msg),
        chat P [] m k true = (Except.ok r, h') →
        r.contextualized_question = some none) := by
  constructor
  · intro llm llm' q
    simp [contextualize_question]
  · intro P m k r h' h
    obtain ⟨sq, docs, answer, hcq, _, _, hr, _⟩ := chat_ok_inv P [] m k true r h' h
    simp only [contextualize_question, List.isEmpty_nil, ite_true,
      Option.some.injEq] at hcq
    subst hcq
    simp [hr, mkResponse]

theorem contextualize_empty_history_short_circuit_witness :
    ({ message := "hello", answer := "DEMO ANSWER",
       contextualized_question := some none,
       sources := some [⟨demoDoc.page_content, demoDoc.metadata⟩],
       num_sources := some 1 } : ChatResponse).contextualized_question
      = some none :=
  contextualize_empty_history_short_circuit.2 demoProviders "hello" 3
    { message := "hello", answer := "DEMO ANSWER",
      contextualized_question := some none,
      sources := some [⟨demoDoc.page_content, demoDoc.metadata⟩],
      num_sources := some 1 }
    [Msg.human "hello", Msg.ai "DEMO ANSWER"] rfl

/-- C2: every successful chat turn appends exactly a human turn carrying
the original message followed by an AI turn carrying the answer; hence
two consecutive turns on a fresh session yield the four-message history
in that exact order. -/
theorem chat_appends_two_turns :
    (∀ (P : Providers) (hist : List Msg) (m : String) (k : Nat) (v : Bool)
        (r : ChatResponse) (h' : List Msg),
        chat P hist m k v = (Except.ok r, h') →
        h' = hist ++ [Msg.human m, Msg.ai r.answer])
  ∧ (∀ (P : Providers) (q1 q2 : String) (k : Nat) (v : Bool)
        (r1 r2 : ChatResponse) (h1 h2 : List Msg),
        chat P [] q1 k v = (Except.ok r1, h1) →
        chat P h1 q2 k v = (Except.ok r2, h2) →
        h2 = [Msg.human q1, Msg.ai r1.answer, Msg.human q2, Msg.ai r2.answer]) := by
  refine ⟨chat_ok_snd, ?_⟩
  intro P q1 q2 k v r1 r2 h1 h2 hc1 hc2
  rw [chat_ok_snd P h1 q2 k v r2 h2 hc2, chat_ok_snd P [] q1 k v r1 h1 hc1]
  rfl

theorem chat_appends_two_turns_witness :
    [Msg.human "Q1", Msg.ai "DEMO ANSWER", Msg.human "Q2", Msg.ai "DEMO ANSWER"]
      = [Msg.human "Q1",
         Msg.ai ({ message := "Q1", answer := "DEMO ANSWER" } : ChatResponse).answer,
         Msg.human "Q2",
         Msg.ai ({ message := "Q2", answer := "DEMO ANSWER" } : ChatResponse).answer] :=
  chat_appends_two_turns.2 demoProviders "Q1" "Q2" 3 false
    { message := "Q1", answer := "DEMO ANSWER" }
    { message := "Q2", answer := "DEMO ANSWER" }
    [Msg.human "Q1", Msg.ai "DEMO ANSWER"]
    [Msg.human "Q1", Msg.ai "DEMO ANSWER", Msg.human "Q2", Msg.ai "DEMO ANSWER"]
    rfl rfl

/-- C3: a chat turn fails exactly when one of the three external provider
calls fails (contextualization rewrite, retrieval, grounded generation);
the failure propagates to the caller and the history is exactly what it
was before the call. -/
theorem chat_failure_preserves_history (P : Providers) (hist : List Msg)
    (m : String) (k : Nat) (v : Bool) :
    (∀ (e : PipelineError) (h' : List Msg),
        chat P hist m k v = (Except.error e, h') → h' = hist)
  ∧ ((∃ e h', chat P hist m k v = (Except.error e, h')) ↔
      contextualize_question P.llm hist m = none
      ∨ ∃ sq, contextualize_question P.llm hist m = some sq ∧
          (P.retrieve sq k = none
           ∨ ∃ docs, P.retrieve sq k = some docs ∧
               P.llm (generationMessages hist m docs) = none)) := by
  refine ⟨fun e h' h => chat_error_snd P hist m k v e h' h, ?_⟩
  unfold chat
  cases hcq : contextualize_question P.llm hist m with
  | none => simp [hcq]
  | some sq =>
    cases hr : P.retrieve sq k with
    | none => simp [hr]
    | some docs =>
      cases hl : P.llm (generationMessages hist m docs) with
      | none => simp [hr, hl]
      | some answer => simp [hr, hl]

theorem chat_failure_preserves_history_witness :
    (chat failProviders [Msg.human "a", Msg.ai "b"] "q" 3 false).2
      = [Msg.human "a", Msg.ai "b"] :=
  (chat_failure_preserves_history failProviders [Msg.human "a", Msg.ai "b"]
      "q" 3 false).1 PipelineError.retrievalFailed
    (chat failProviders [Msg.human "a", Msg.ai "b"] "q" 3 false).2 rfl

theorem lookupStore_append (a b : Store) (sid : String) :
    lookupStore (a ++ b) sid
      = (lookupStore a sid).orElse (fun _ => lookupStore b sid) := by
  induction a with
  | nil => simp [lookupStore]
  | cons p rest ih =>
    cases p with
    | mk key hval =>
      by_cases hk : key = sid
      · simp [lookupStore, hk]
      · simp [lookupStore, hk, ih]

/-- After `get_chatbot`, the session is present, bound to its previous
history or to the empty history of a fresh instance. -/
theorem lookupStore_get_chatbot (store : Store) (sid : String) :
    lookupStore (get_chatbot store sid) sid
      = some ((lookupStore store sid).getD []) := by
  unfold get_chatbot containsStore
  cases hl : lookupStore store sid with
  | some h0 => simp [hl]
  | none => simp [lookupStore_append, hl, lookupStore]

/-- C4: every successful call of the chat endpoint returns the original
input as `message`, the session the turn was applied to as `session_id`,
and the text produced by the grounded-generation call as `answer`,
whether or not verbose is set. -/
theorem chat_result_has_message_answer_session (P : Providers) (store : Store)
    (sid m : String) (k : Nat) (v : Bool) (r : ApiChatResponse) (store' : Store)
    (h : api_chat P store sid m k v = (Except.ok r, store')) :
    r.message = m ∧ r.session_id = sid ∧
    ∃ hist sq docs,
      lookupStore (get_chatbot store sid) sid = some hist ∧
      contextualize_question P.llm hist m = some sq ∧
      P.retrieve sq k = some docs ∧
      P.llm (generationMessages hist m docs) = some r.answer := by
  unfold api_chat at h
  dsimp only at h
  split at h
  · simp at h
  · rename_i p r0 hist' hc
    simp only [Prod.mk.injEq, Except.ok.injEq] at h
    obtain ⟨hr, _⟩ := h
    obtain ⟨sq, docs, answer, hcq, hret, hllm, hr0, _⟩ :=
      chat_ok_inv P ((lookupStore (get_chatbot store sid) sid).getD []) m k v r0 hist' hc
    subst hr
    refine ⟨by simp [hr0, mkResponse_message], rfl,
      (lookupStore (get_chatbot store sid) sid).getD [], sq, docs,
      by rw [lookupStore_get_chatbot]; simp, hcq, hret, ?_⟩
    simpa [hr0, mkResponse_answer] using hllm

theorem chat_result_has_message_answer_session_witness :
    (⟨"hello", "DEMO ANSWER", "s1", none, none, none⟩ : ApiChatResponse).message = "hello"
  ∧ (⟨"hello", "DEMO ANSWER", "s1", none, none, none⟩ : ApiChatResponse).session_id = "s1"
  ∧ ∃ hist sq docs,
      lookupStore (get_chatbot [] "s1") "s1" = some hist ∧
      contextualize_question demoProviders.llm hist "hello" = some sq ∧
      demoProviders.retrieve sq 3 = some docs ∧
      demoProviders.llm (generationMessages hist "hello" docs)
        = some (⟨"hello", "DEMO ANSWER", "s1", none, none, none⟩ : ApiChatResponse).answer :=
  chat_result_has_message_answer_session demoProviders [] "s1" "hello" 3 false
    ⟨"hello", "DEMO ANSWER", "s1", none, none, none⟩
    [("s1", [Msg.human "hello", Msg.ai "DEMO ANSWER"])] rfl

/-- C5: the retrieval step has no session filter, so two runs of the same
chat call for session "s1" that differ only in a chunk ingested under
session "s2" retrieve different chunk sets and produce different outputs,
and the "s2"-owned chunk appears among the sources returned to "s1". -/
theorem retrieval_leaks_across_sessions :
    ∃ (r1 r2 : ApiChatResponse) (st1 st2 : Store),
      api_chat (providersWithIndex [demoDoc]) [("s1", [])] "s1" "what is beta?" 3 true
        = (Except.ok r1, st1)
      ∧ api_chat (providersWithIndex [demoDoc, demoDocOther]) [("s1", [])] "s1" "what is beta?" 3 true
        = (Except.ok r2, st2)
      ∧ demoDocOther.metadata.session_id = "s2"
      ∧ r1.session_id = "s1" ∧ r2.session_id = "s1"
      ∧ r1.sources ≠ r2.sources ∧ r1 ≠ r2
      ∧ ⟨demoDocOther.page_content, demoDocOther.metadata⟩ ∈ (r2.sources.getD []) := by
  refine ⟨⟨"what is beta?", "GROUNDED ANSWER", "s1", some none,
      some [⟨demoDoc.page_content, demoDoc.metadata⟩], some 1⟩,
    ⟨"what is beta?", "GROUNDED ANSWER", "s1", some none,
      some [⟨demoDoc.page_content, demoDoc.metadata⟩,
            ⟨demoDocOther.page_content, demoDocOther.metadata⟩], some 2⟩,
    [("s1", [Msg.human "what is beta?", Msg.ai "GROUNDED ANSWER"])],
    [("s1", [Msg.human "what is beta?", Msg.ai "GROUNDED ANSWER"])],
    rfl, rfl, rfl, rfl, rfl, by decide, by decide, by decide⟩

/-- C6: in a successful verbose chat turn, `num_sources` counts exactly
the returned `sources`, is between 0 and the requested `k` (given the
index collaborator's contract that a query returns at most `k` records),
sources are the retrieved chunks in rank order as content/metadata pairs,
and `contextualized_question` is null exactly when the rewritten query
equals the original message. -/
theorem chat_verbose_retrieval_bound (P : Providers) (hist : List Msg)
    (m : String) (k : Nat) (r : ChatResponse) (h' : List Msg)
    (hk : 1 ≤ k)
    (hcontract : ∀ q docs, P.retrieve q k = some docs → docs.length ≤ k)
    (h : chat P hist m k true = (Except.ok r, h')) :
    ∃ sq docs,
      contextualize_question P.llm hist m = some sq ∧
      P.retrieve sq k = some docs ∧
      r.sources = some (docs.map (fun d => ⟨d.page_content, d.metadata⟩)) ∧
      r.num_sources = some docs.length ∧
      docs.length ≤ k ∧ 0 ≤ docs.length ∧
      r.num_sources = some ((r.sources.getD []).length) ∧
      (r.contextualized_question = some none ↔ sq = m) := by
  obtain ⟨sq, docs, answer, hcq, hret, hllm, hr0, _⟩ :=
    chat_ok_inv P hist m k true r h' h
  subst hr0
  refine ⟨sq, docs, hcq, hret, by simp [mkResponse], by simp [mkResponse],
    hcontract sq docs hret, Nat.zero_le _, by simp [mkResponse], ?_⟩
  by_cases hsm : sq = m
  · simp [mkResponse, hsm]
  · simp [mkResponse, hsm]

theorem chat_verbose_retrieval_bound_witness :
    1 ≤ 3
  ∧ (∃ sq docs,
      contextualize_question demoProviders.llm [] "hello" = some sq ∧
      demoProviders.retrieve sq 3 = some docs ∧
      (mkResponse "hello" "DEMO ANSWER" "hello" [demoDoc] true).sources
        = some (docs.map (fun d => ⟨d.page_content, d.metadata⟩)) ∧
      (mkResponse "hello" "DEMO ANSWER" "hello" [demoDoc] true).num_sources
        = some docs.length ∧
      docs.length ≤ 3 ∧ 0 ≤ docs.length ∧
      (mkResponse "hello" "DEMO ANSWER" "hello" [demoDoc] true).num_sources
        = some (((mkResponse "hello" "DEMO ANSWER" "hello" [demoDoc] true).sources.getD []).length) ∧
      ((mkResponse "hello" "DEMO ANSWER" "hello" [demoDoc] true).contextualized_question
          = some none ↔ sq = "hello")) :=
  ⟨by decide,
   chat_verbose_retrieval_bound demoProviders [] "hello" 3
     (mkResponse "hello" "DEMO ANSWER" "hello" [demoDoc] true)
     [Msg.human "hello", Msg.ai "DEMO ANSWER"] (by decide)
     (fun q docs hq => by
        simp only [demoProviders, Option.some.injEq] at hq
        subst hq
        decide)
     rfl⟩

theorem lookupStore_updateStore (store : Store) (sid : String) (hv : List Msg) :
    lookupStore (updateStore store sid hv) sid
      = (lookupStore store sid).map (fun _ => hv) := by
  induction store with
  | nil => simp [updateStore, lookupStore]
  | cons p rest ih =>
    simp only [updateStore, List.map_cons] at ih ⊢
    by_cases hk : p.1 = sid
    · simp [lookupStore, hk]
    · simpa [lookupStore, hk] using ih

theorem lookupStore_filter_self (store : Store) (sid : String) :
    lookupStore (store.filter (fun p => p.1 ≠ sid)) sid = none := by
  induction store with
  | nil => rfl
  | cons p rest ih =>
    simp only [List.filter_cons]
    by_cases hk : p.1 = sid
    · simpa [hk] using ih
    · simpa [hk, lookupStore] using ih

/-- The session deleted by `delete_session` is gone from the store. -/
theorem containsStore_delete (store : Store) (sid : String) :
    containsStore (delete_session store sid).2 sid = false := by
  unfold delete_session
  by_cases hc : containsStore store sid
  · simp only [hc, ite_true]
    unfold containsStore
    rw [lookupStore_filter_self]
    rfl
  · rw [if_neg hc]
    simpa using hc

/-- C7: `clear_session_history` and `delete_session` succeed exactly when
the session exists, repeating either on an absent session reports false
without raising, clear keeps the record with an emptied history, delete
removes it, and clear on a freshly created session succeeds and leaves
the history empty. -/
theorem session_clear_delete_contract (store : Store) (sid : String) :
    ((clear_session_history store sid).1 = containsStore store sid)
  ∧ ((delete_session store sid).1 = containsStore store sid)
  ∧ (clear_session_history (delete_session store sid).2 sid
       = (false, (delete_session store sid).2))
  ∧ (delete_session (delete_session store sid).2 sid
       = (false, (delete_session store sid).2))
  ∧ (lookupStore (clear_session_history store sid).2 sid
       = if containsStore store sid then some [] else none)
  ∧ (lookupStore (delete_session store sid).2 sid = none)
  ∧ ((clear_session_history (get_chatbot store sid) sid).1 = true)
  ∧ (lookupStore (clear_session_history (get_chatbot store sid) sid).2 sid
       = some []) := by
  have hdel := containsStore_delete store sid
  have hget : containsStore (get_chatbot store sid) sid = true := by
    simp [containsStore, lookupStore_get_chatbot]
  refine ⟨?_, ?_, ?_, ?_, ?_, ?_, ?_, ?_⟩
  · unfold clear_session_history
    by_cases hc : containsStore store sid <;> simp [hc]
  · unfold delete_session
    by_cases hc : containsStore store sid <;> simp [hc]
  · unfold clear_session_history
    simp [hdel]
  · conv_lhs => rw [delete_session]
    simp [hdel]
  · unfold clear_session_history
    by_cases hc : containsStore store sid
    · simp only [hc, ite_true, lookupStore_updateStore]
      rcases ho : lookupStore store sid with _ | h0
      · simp [containsStore, ho] at hc
      · simp
    · simp only [hc, ite_false]
      simpa [containsStore] using hc
  · rcases hd : lookupStore (delete_session store sid).2 sid with _ | h0
    · rfl
    · have : containsStore (delete_session store sid).2 sid = true := by
        simp [containsStore, hd]
      rw [this] at hdel
      exact absurd hdel (by simp)
  · unfold clear_session_history
    simp [hget]
  · unfold clear_session_history
    simp [hget, lookupStore_updateStore, lookupStore_get_chatbot]

/-- C8: an upload whose extraction yields empty text, and one whose
embedding/upsert step fails, are both reported as non-success with zero
chunks created, with distinct human-readable errors — never a partial
silent success. -/
theorem process_pdf_failure_reporting (split : String → List String)
    (upsertOk : Bool) (text saved_path sid filename : String) :
    (process_uploaded_pdf split upsertOk "" saved_path sid filename
       = { success := false, error := some extractionError, chunks_created := 0 })
  ∧ ((process_uploaded_pdf split false text saved_path sid filename).success = false
  ∧ (process_uploaded_pdf split false text saved_path sid filename).chunks_created = 0
  ∧ (process_uploaded_pdf split false text saved_path sid filename).error
      = some (if text = "" then extractionError else upsertError))
  ∧ extractionError ≠ upsertError := by
  refine ⟨by simp [process_uploaded_pdf], ?_, by decide⟩
  by_cases ht : text = ""
  · simp [process_uploaded_pdf, ht]
  · simp [process_uploaded_pdf, ht, add_to_vector_store]

theorem enum_map_fst_comp {α β : Type _} (l : List α) (f : Nat → β) :
    l.enum.map (fun p => f p.1) = (List.range l.length).map f := by
  rw [← List.enum_map_fst l, List.map_map]
  rfl

/-- C9: every chunk produced by `create_documents` is tagged with the
source path, filename, owning session id, a contiguous zero-based
chunk index, the total chunk count of the document, and the
document-type tag; the chunk texts are the splitter's output in order. -/
theorem create_documents_metadata_contiguous (split : String → List String)
    (text source sid filename : String) :
    (create_documents split text source sid filename).length = (split text).length
  ∧ (create_documents split text source sid filename).map (fun d => d.page_content)
      = split text
  ∧ (create_documents split text source sid filename).map (fun d => d.metadata)
      = (List.range (split text).length).map
          (fun i => ⟨source, filename, sid, i, (split text).length, "uploaded_pdf"⟩) := by
  unfold create_documents
  refine ⟨by simp [List.enum_length], ?_, ?_⟩
  · rw [List.map_map]
    exact List.enum_map_snd (split text)
  · rw [List.map_map]
    exact enum_map_fst_comp (split text)
      (fun i => (⟨source, filename, sid, i, (split text).length, "uploaded_pdf"⟩ : Metadata))

theorem humanTurns_append (a b : List Msg) :
    humanTurns (a ++ b) = humanTurns a ++ humanTurns b := by
  induction a with
  | nil => rfl
  | cons x rest ih => cases x <;> simp [humanTurns, ih]

theorem isDialogue_append_pair (m a : String) :
    ∀ (h : List Msg), isDialogue (h ++ [Msg.human m, Msg.ai a]) = isDialogue h
  | [] => by simp [isDialogue]
  | [x] => by cases x <;> simp [isDialogue]
  | x :: y :: rest => by
    cases x <;> cases y <;>
      simp [isDialogue, isDialogue_append_pair m a rest]

theorem isDialogue_length_even :
    ∀ (h : List Msg), isDialogue h = true → h.length % 2 = 0
  | [] => fun _ => rfl
  | [x] => by cases x <;> simp [isDialogue]
  | Msg.human _ :: Msg.ai _ :: rest => by
    intro hd
    have ih := isDialogue_length_even rest (by simpa [isDialogue] using hd)
    simp only [List.length_cons]
    omega
  | Msg.human _ :: Msg.human _ :: rest => by simp [isDialogue]
  | Msg.human _ :: Msg.system _ :: rest => by simp [isDialogue]
  | Msg.ai _ :: _ :: rest => by simp [isDialogue]
  | Msg.system _ :: _ :: rest => by simp [isDialogue]

/-- Replaying any operation sequence from a history that is an
alternating dialogue whose human turns are `ms` keeps the history an
alternating dialogue, and its human turns are exactly the recorded
original messages. -/
theorem runOps_dialogue_invariant (P : Providers) :
    ∀ (ops : List Op) (hist : List Msg) (ms : List String),
      isDialogue hist = true → humanTurns hist = ms →
      isDialogue (runOps P hist ops) = true ∧
      humanTurns (runOps P hist ops) = runMsgs P hist ms ops
  | [], hist, ms, hd, hm => ⟨hd, by simpa [runOps, runMsgs]⟩
  | Op.clearOp :: rest, hist, ms, hd, hm => by
    simp only [runOps, applyOp, runMsgs]
    exact runOps_dialogue_invariant P rest [] [] rfl rfl
  | Op.chatOp m k v :: rest, hist, ms, hd, hm => by
    simp only [runOps, applyOp, runMsgs]
    rcases hc : chat P hist m k v with ⟨res, hist'⟩
    cases res with
    | error e =>
      have he : hist' = hist := chat_error_snd P hist m k v e hist' hc
      subst he
      dsimp only
      exact runOps_dialogue_invariant P rest hist' ms hd hm
    | ok r =>
      have he : hist' = hist ++ [Msg.human m, Msg.ai r.answer] :=
        chat_ok_snd P hist m k v r hist' hc
      dsimp only
      refine runOps_dialogue_invariant P rest hist' (ms ++ [m]) ?_ ?_
      · rw [he, isDialogue_append_pair]
        exact hd
      · rw [he, humanTurns_append, hm]
        rfl

/-- C10: after any sequence of chat and clear-history operations on one
chatbot instance, the history is an even-length strict alternation of
human and AI turns starting with a human turn, and its human turns are
exactly the original messages of the successful chat calls since the
last clear, in call order. -/
theorem history_alternation_invariant (P : Providers) (ops : List Op) :
    isDialogue (runOps P [] ops) = true
  ∧ (runOps P [] ops).length % 2 = 0
  ∧ humanTurns (runOps P [] ops) = runMsgs P [] [] ops := by
  obtain ⟨h1, h2⟩ := runOps_dialogue_invariant P ops [] [] rfl rfl
  exact ⟨h1, isDialogue_length_even _ h1, h2⟩

end RAGBackend
